import Mathlib

/-!
Verification of `octokit/resources.py`, the lazy hypermedia resource engine.

The development shallowly embeds the dynamic semantics of the `Resource`
class: Python values are modelled by the inductive type `PyVal` (with
`Resource` instances as the `pyres` constructor carrying the optional
`name`, `url` and `schema` attributes), network traffic is modelled by a
stub transport mapping a call counter and a request to a response, and
every operation threads an explicit call counter so that theorems can
speak about how many network requests an execution performs.  Python's
recursion limit is modelled by a fuel parameter: every operation consumes
one unit of fuel per nested activation and an exhausted fuel returns
`Err.recursionError`, so a genuinely divergent Python execution is the
executions that error at every fuel.
-/

namespace Octokit

/-- Python values as they occur in this module: JSON scalars, lists,
string-keyed dictionaries, and `Resource` instances.  A `Resource` instance
is `pyres name url schema`: `name` is the value of the always-assigned
`self.name` attribute, while `url` and `schema` are `none` when
`Resource.__init__` did not assign the corresponding attribute (both
assignments are conditional in the source). -/
inductive PyVal where
  | pynone
  | pybool (b : Bool)
  | pyint (i : Int)
  | pystr (s : String)
  | pylist (xs : List PyVal)
  | pydict (kvs : List (String × PyVal))
  | pyres (name : PyVal) (url : Option PyVal) (schema : Option PyVal)

open PyVal

/-- Errors raised by the embedded code.  `clientError` and `serverError`
carry the HTTP status (spec taxonomy); the remaining constructors model the
Python exceptions the module can raise (`ValueError` from `response.json()`
is `malformedResponse`, the bare `Exception` for a scalar body is
`unknownResponseType`, and `nameError`, `typeError`, `attributeError`,
`keyError`, `indexError`, `recursionError` model the homonymous Python
errors).  `transportFailure` is a convenient error for stub transports. -/
inductive Err where
  | clientError (status : Nat)
  | serverError (status : Nat)
  | malformedResponse
  | unknownResponseType
  | nameError
  | typeError
  | attributeError
  | keyError
  | indexError
  | recursionError
  | transportFailure

/-- Python truthiness for the values of `PyVal`; object instances such as
resources are always truthy. -/
def truthy : PyVal → Bool
  | pynone => false
  | pybool b => b
  | pyint i => i != 0
  | pystr s => !s.data.isEmpty
  | pylist xs => !xs.isEmpty
  | pydict kvs => !kvs.isEmpty
  | pyres _ _ _ => true

/-- Python equality test between a value and a string: strings compare by
content, every other value (including resources, which use identity
equality) compares unequal. -/
def strEq (v : PyVal) (s : String) : Bool :=
  match v with
  | pystr t => t = s
  | _ => false

/-- Lookup in a string-keyed dictionary (first, hence only, binding). -/
def dictGet : List (String × PyVal) → String → Option PyVal
  | [], _ => none
  | (k, v) :: rest, key => if k = key then some v else dictGet rest key

/-- Assignment `d[key] = v` on an insertion-ordered dictionary: replaces an
existing binding in place, otherwise appends. -/
def dictSet {α : Type} : List (String × α) → String → α → List (String × α)
  | [], key, v => [(key, v)]
  | (k, w) :: rest, key, v =>
    if k = key then (k, v) :: rest else (k, w) :: dictSet rest key v

/-- Test whether the pattern is a prefix of the character list. -/
def charsIsPrefix : List Char → List Char → Bool
  | [], _ => true
  | _ :: _, [] => false
  | a :: as, b :: bs => a = b && charsIsPrefix as bs

/-- Characters before the first occurrence of the separator (the whole list
when the separator does not occur). -/
def charsBeforeFirst (sep : List Char) : List Char → List Char
  | [] => []
  | c :: cs =>
    if charsIsPrefix sep (c :: cs) then [] else c :: charsBeforeFirst sep cs

/-- Substring test on character lists. -/
def charsContains (sep : List Char) : List Char → Bool
  | [] => sep.isEmpty
  | c :: cs => charsIsPrefix sep (c :: cs) || charsContains sep cs

/-- Python `s.split(sep)[0]`: the part of the string before the first
occurrence of `sep` (the whole string when `sep` does not occur). -/
def strBefore (s sep : String) : String :=
  ⟨charsBeforeFirst sep.data s.data⟩

/-- Python `s.endswith(suffix)`. -/
def strEndsWith (s suffix : String) : Bool :=
  charsIsPrefix suffix.data.reverse s.data.reverse

/-- Python `needle in hay` for strings. -/
def strContainsStr (hay needle : String) : Bool :=
  charsContains needle.data hay.data

/-- Modelled from the spec: `inflection.humanize` from the external
`inflection` library (not part of this repository).  Per the spec, labels
are rendered human-readable: a trailing `_id` is removed, underscores
become spaces, the word is lower-cased and its first letter capitalized. -/
def humanizeStr (s : String) : String :=
  let cs :=
    if charsIsPrefix "_id".data.reverse s.data.reverse
    then (s.data.reverse.drop 3).reverse else s.data
  let cs := cs.map (fun c => if c = '_' then ' ' else c.toLower)
  match cs with
  | [] => ""
  | c :: rest => ⟨c.toUpper :: rest⟩

/-- Modelled from the spec: `inflection.singularize` from the external
`inflection` library, restricted to the regular plural rule the spec
exercises (an `items` array yields nodes labeled `item`): a trailing `s`
that is not part of a double `s` is dropped. -/
def singularizeStr (s : String) : String :=
  if strEndsWith s "s" && !strEndsWith s "ss" && s.data.length > 1
  then ⟨s.data.dropLast⟩ else s

/-- Python `humanize(v)`: defined on strings, a non-string argument makes
the library's regular-expression machinery raise `TypeError`. -/
def humanizePy : PyVal → Except Err PyVal
  | pystr s => Except.ok (pystr (humanizeStr s))
  | _ => Except.error Err.typeError

/-- Python `singularize(v)`: defined on strings only, like `humanizePy`. -/
def singularizePy : PyVal → Except Err PyVal
  | pystr s => Except.ok (pystr (singularizeStr s))
  | _ => Except.error Err.typeError

/-- Tokens of a URI template: literal characters and brace expressions. -/
inductive TTok where
  | lit (c : Char)
  | texpr (e : String)

/-- Scanner for URI templates: splits the template into literal characters
and the contents of brace expressions; an unterminated brace is kept as
literal text. -/
def lexTemplate : List Char → Option (List Char) → List TTok
  | [], none => []
  | [], some acc => ('{' :: acc.reverse).map TTok.lit
  | c :: rest, none =>
    if c = '{' then lexTemplate rest (some [])
    else TTok.lit c :: lexTemplate rest none
  | c :: rest, some acc =>
    if c = '}' then TTok.texpr ⟨acc.reverse⟩ :: lexTemplate rest none
    else lexTemplate rest (some (c :: acc))

/-- Operator characters of RFC 6570 expressions. -/
def opChars : List Char := ['+', '#', '.', '/', ';', '?', '&', '=', ',', '!', '@', '|']

/-- Variable names declared by one brace expression: the leading operator
is dropped, the list splits on commas, and the `:len` and `*` modifiers are
stripped from each name. -/
def varsOfExpr (e : String) : List String :=
  let cs :=
    match e.data with
    | c :: rest => if opChars.contains c then rest else c :: rest
    | [] => []
  (splitComma cs).map (fun v =>
    let v1 := charsBeforeFirst [':'] v
    let v2 := if charsIsPrefix ['*'] v1.reverse then v1.dropLast else v1
    (⟨v2⟩ : String))
where
  /-- Split a character list on commas. -/
  splitComma : List Char → List (List Char)
    | [] => [[]]
    | c :: cs =>
      if c = ',' then [] :: splitComma cs
      else
        match splitComma cs with
        | [] => [[c]]
        | g :: gs => (c :: g) :: gs

/-- Order-preserving removal of duplicate variable names. -/
def dedupStrs : List String → List String
  | [] => []
  | s :: rest => s :: (dedupStrs rest).filter (fun t => t ≠ s)

/-- Modelled from the spec: `uritemplate.variables` of the external
`uritemplate` library — the set of variable placeholders a template
declares, per standard URI-template placeholder syntax. -/
def uritemplate_variables (u : String) : List String :=
  dedupStrs ((lexTemplate u.data none).flatMap fun tok =>
    match tok with
    | TTok.lit _ => []
    | TTok.texpr e => varsOfExpr e)

/-- Hexadecimal digit for percent-encoding. -/
def hexDigit (n : Nat) : Char :=
  if n < 10 then Char.ofNat (48 + n) else Char.ofNat (55 + n)

/-- Percent-encode one character (ASCII model: unreserved characters pass
through, every other character becomes a `%HH` triple). -/
def percentEncodeChar (c : Char) : String :=
  let n := c.toNat
  if (97 ≤ n && n ≤ 122) || (65 ≤ n && n ≤ 90) || (48 ≤ n && n ≤ 57) ||
      c = '-' || c = '.' || c = '_' || c = '~'
  then ⟨[c]⟩
  else ⟨['%', hexDigit (n / 16 % 16), hexDigit (n % 16)]⟩

/-- Percent-encode a string character by character. -/
def percentEncode (s : String) : String :=
  (s.data.map percentEncodeChar).foldr (fun a b => a ++ b) ""

/-- Stringification a URI-template binding applies to a value before
substitution; values the claims never exercise are treated as unbound. -/
def templateStr : PyVal → Option String
  | pystr s => some s
  | pyint i => some (toString i)
  | pybool b => some (if b then "True" else "False")
  | _ => none

/-- Join expansion values with the comma separator. -/
def joinComma : List String → String
  | [] => ""
  | [s] => s
  | s :: rest => s ++ "," ++ joinComma rest

/-- Modelled from the spec: `uritemplate.expand` of the external
`uritemplate` library — bound variables are substituted (percent-encoded),
unbound variables are simply omitted, and the template's literal characters
are left intact. -/
def uritemplate_expand (u : String) (bindings : List (String × PyVal)) : String :=
  ((lexTemplate u.data none).map fun tok =>
    match tok with
    | TTok.lit c => (⟨[c]⟩ : String)
    | TTok.texpr e =>
      joinComma ((varsOfExpr e).filterMap fun v =>
        (dictGet bindings v).bind templateStr |>.map percentEncode)
  ).foldr (fun a b => a ++ b) ""

/-- Modelled from the spec: `handle_status` lives in `octokit.exceptions`,
which is not under `src/`.  Per the spec's error taxonomy (§7), a 4xx
status maps to `ClientError` and a 5xx status to `ServerError`, both
carrying the status code; every other status is within the success range
handled by the engine. -/
def handle_status (status : Nat) : Except Err Unit :=
  if status < 400 then Except.ok ()
  else if status < 500 then Except.error (Err.clientError status)
  else if status < 600 then Except.error (Err.serverError status)
  else Except.ok ()

/-- Body of an HTTP response as the engine observes it: empty text, text
that decodes to a JSON value, or text that `response.json()` fails on. -/
inductive Body where
  | empty
  | json (v : PyVal)
  | malformed

/-- Status code and body of a stub HTTP response. -/
structure HttpResponse where
  status : Nat
  body : Body

/-- The request the engine hands the transport: method, expanded URL and
the caller's request parameters. -/
structure HttpRequest where
  method : String
  url : String
  params : PyVal

/-- A stub transport: given the index of the network call (a call counter)
and the request, it either raises or returns a response. -/
def Transport : Type := Nat → HttpRequest → Except Err HttpResponse

/-- The `self.name` attribute of a resource (always assigned by
`Resource.__init__`). -/
def nameOf : PyVal → PyVal
  | pyres nm _ _ => nm
  | _ => pynone

set_option maxHeartbeats 2000000 in
mutual

/-- Embeds `Resource.ensure_schema_loaded` (resources.py lines 68-72):
`if self.schema: return` then `self.schema = self.get().schema`.  The test
is Python truthiness of the schema attribute; when the attribute is absent
altogether, reading `self.schema` re-enters `__getattr__('schema')`, which
calls `ensure_schema_loaded` again — an unbounded recursion modelled by the
self-call on smaller fuel.  On success the returned resource carries the
newly assigned schema; the assignment is the last step of the method, so an
error leaves the receiver unchanged. -/
def ensure_schema_loaded (t : Transport) (fuel : Nat) (r : PyVal) (n : Nat) :
    Except Err PyVal × Nat :=
  match fuel with
  | 0 => (Except.error Err.recursionError, n)
  | f + 1 =>
    match r with
    | pyres nm u (some s) =>
      if truthy s then (Except.ok (pyres nm u (some s)), n)
      else
        match fetch_resource t f (pyres nm u (some s)) "GET" (pydict []) [] [] n with
        | (Except.error e, n1) => (Except.error e, n1)
        | (Except.ok r2, n1) =>
          match getattr_schema t f r2 n1 with
          | (Except.error e, n2) => (Except.error e, n2)
          | (Except.ok s2, n2) => (Except.ok (pyres nm u (some s2)), n2)
    | pyres nm u none => ensure_schema_loaded t f (pyres nm u none) n
    | _ => (Except.error Err.typeError, n)
  termination_by structural fuel

/-- Reading the `schema` attribute of a value: present instance attributes
are returned directly; on a resource without the attribute Python falls
back to `Resource.__getattr__('schema')`; a non-resource has no such
attribute at all. -/
def getattr_schema (t : Transport) (fuel : Nat) (r : PyVal) (n : Nat) :
    Except Err PyVal × Nat :=
  match fuel with
  | 0 => (Except.error Err.recursionError, n)
  | f + 1 =>
    match r with
    | pyres _ _ (some s) => (Except.ok s, n)
    | pyres nm u none =>
      match resource_getattr t f (pyres nm u none) "schema" n with
      | (Except.ok v, _, n1) => (Except.ok v, n1)
      | (Except.error e, _, n1) => (Except.error e, n1)
    | _ => (Except.error Err.attributeError, n)
  termination_by structural fuel

/-- Reading the `url` attribute of a value, with the same fallback to
`Resource.__getattr__('url')` when the instance attribute was never
assigned. -/
def getattr_url (t : Transport) (fuel : Nat) (r : PyVal) (n : Nat) :
    Except Err PyVal × Nat :=
  match fuel with
  | 0 => (Except.error Err.recursionError, n)
  | f + 1 =>
    match r with
    | pyres _ (some uv) _ => (Except.ok uv, n)
    | pyres nm none sch =>
      match resource_getattr t f (pyres nm none sch) "url" n with
      | (Except.ok v, _, n1) => (Except.ok v, n1)
      | (Except.error e, _, n1) => (Except.error e, n1)
    | _ => (Except.error Err.attributeError, n)
  termination_by structural fuel

/-- Embeds `Resource.__getattr__` (resources.py lines 34-39): ensure the
schema is loaded, return `self.schema[name]` when `name in self.schema`,
otherwise `raise handle_status(404)` (the logical `NotFound`).  The result
triple is (outcome, receiver after the call, call counter): the receiver is
updated by the load even when the lookup then fails, and is returned
unchanged when the load itself fails.  The Python `in` test on a list
schema compares the name against the list elements, and a hit would then
subscript the list with a string, a `TypeError`. -/
def resource_getattr (t : Transport) (fuel : Nat) (r : PyVal) (key : String)
    (n : Nat) : Except Err PyVal × PyVal × Nat :=
  match fuel with
  | 0 => (Except.error Err.recursionError, r, n)
  | f + 1 =>
    match ensure_schema_loaded t f r n with
    | (Except.error e, n1) => (Except.error e, r, n1)
    | (Except.ok r1, n1) =>
      match r1 with
      | pyres _ _ (some (pydict kvs)) =>
        match dictGet kvs key with
        | some v => (Except.ok v, r1, n1)
        | none => (Except.error (Err.clientError 404), r1, n1)
      | pyres _ _ (some (pylist xs)) =>
        if xs.any (strEq · key) then (Except.error Err.typeError, r1, n1)
        else (Except.error (Err.clientError 404), r1, n1)
      | pyres _ _ (some (pystr s)) =>
        if strContainsStr s key then (Except.error Err.typeError, r1, n1)
        else (Except.error (Err.clientError 404), r1, n1)
      | pyres _ _ (some _) => (Except.error Err.typeError, r1, n1)
      | _ => (Except.error Err.recursionError, r1, n1)
  termination_by structural fuel

/-- Python `needle in container` as used by `Resource.__init__`'s
`'url' in schema` test: key membership for dictionaries, element equality
for lists, substring for strings.  A resource has neither `__contains__`
nor `__iter__`, so `in` falls back to the `__getitem__` iteration protocol
starting at index 0: that ensures the schema is loaded and then subscripts
it, and on the string-keyed dictionaries this module builds the integer
subscript raises `KeyError` (which the protocol does not swallow). -/
def py_contains (t : Transport) (fuel : Nat) (needle : String) (c : PyVal)
    (n : Nat) : Except Err Bool × Nat :=
  match fuel with
  | 0 => (Except.error Err.recursionError, n)
  | f + 1 =>
    match c with
    | pydict kvs => (Except.ok (kvs.any (fun kv => kv.1 = needle)), n)
    | pylist xs => (Except.ok (xs.any (strEq · needle)), n)
    | pystr s => (Except.ok (strContainsStr s needle), n)
    | pyres nm u sch =>
      match ensure_schema_loaded t f (pyres nm u sch) n with
      | (Except.error e, n1) => (Except.error e, n1)
      | (Except.ok r1, n1) =>
        match r1 with
        | pyres _ _ (some (pydict _)) => (Except.error Err.keyError, n1)
        | pyres _ _ (some (pylist xs)) => (Except.ok (xs.any (strEq · needle)), n1)
        | pyres _ _ (some (pystr s)) =>
          (Except.ok (s.data.any (fun ch => (⟨[ch]⟩ : String) = needle)), n1)
        | _ => (Except.error Err.typeError, n1)
    | _ => (Except.error Err.typeError, n)
  termination_by structural fuel

/-- Python subscription `c[key]`.  Dictionaries here are string-keyed, so
any other key misses (`KeyError`); lists accept integer (and boolean)
indices with Python's negative-index rule; strings index to one-character
strings; subscribing a resource runs `Resource.__getitem__` (resources.py
lines 41-43): ensure loaded, then subscript the schema. -/
def py_subscript (t : Transport) (fuel : Nat) (c : PyVal) (key : PyVal)
    (n : Nat) : Except Err PyVal × Nat :=
  match fuel with
  | 0 => (Except.error Err.recursionError, n)
  | f + 1 =>
    match c with
    | pydict kvs =>
      match key with
      | pystr s =>
        (match dictGet kvs s with
         | some v => Except.ok v
         | none => Except.error Err.keyError, n)
      | _ => (Except.error Err.keyError, n)
    | pylist xs =>
      match key with
      | pyint i =>
        let j : Int := if i < 0 then (xs.length : Int) + i else i
        if 0 ≤ j ∧ j.toNat < xs.length
        then (Except.ok (xs.getD j.toNat pynone), n)
        else (Except.error Err.indexError, n)
      | pybool b =>
        let j := if b then 1 else 0
        if j < xs.length then (Except.ok (xs.getD j pynone), n)
        else (Except.error Err.indexError, n)
      | _ => (Except.error Err.typeError, n)
    | pystr s =>
      match key with
      | pyint i =>
        let j : Int := if i < 0 then (s.data.length : Int) + i else i
        if 0 ≤ j ∧ j.toNat < s.data.length
        then (Except.ok (pystr ⟨[s.data.getD j.toNat ' ']⟩), n)
        else (Except.error Err.indexError, n)
      | _ => (Except.error Err.typeError, n)
    | pyres nm u sch =>
      match ensure_schema_loaded t f (pyres nm u sch) n with
      | (Except.error e, n1) => (Except.error e, n1)
      | (Except.ok r1, n1) =>
        match r1 with
        | pyres _ _ (some s1) => py_subscript t f s1 key n1
        | _ => (Except.error Err.recursionError, n1)
    | _ => (Except.error Err.typeError, n)
  termination_by structural fuel

/-- Evaluates `key.split('_url')[0]` from `Resource.parse_schema_dict`
(resources.py line 94) for a dynamically typed key.  Strings use the real
`split`; on a resource the attribute lookup of `split` goes through
`Resource.__getattr__` (normally raising the 404 `NotFound`), and a value
found under that key is then called — only a resource is callable, and its
`__call__` (line 45-46) runs `self.get()` ignoring the positional argument,
after which `[0]` subscripts the result; other values have no `split`
attribute (`AttributeError`). -/
def key_split_name (t : Transport) (fuel : Nat) (key : PyVal) (n : Nat) :
    Except Err PyVal × Nat :=
  match fuel with
  | 0 => (Except.error Err.recursionError, n)
  | f + 1 =>
    match key with
    | pystr s => (Except.ok (pystr (strBefore s "_url")), n)
    | pyres nm u sch =>
      match resource_getattr t f (pyres nm u sch) "split" n with
      | (Except.error e, _, n1) => (Except.error e, n1)
      | (Except.ok w, _, n1) =>
        match w with
        | pyres a b c =>
          match fetch_resource t f (pyres a b c) "GET" (pydict []) [] [] n1 with
          | (Except.error e, n2) => (Except.error e, n2)
          | (Except.ok res2, n2) => py_subscript t f res2 (pyint 0) n2
        | _ => (Except.error Err.typeError, n1)
    | _ => (Except.error Err.attributeError, n)
  termination_by structural fuel

/-- Evaluates the truth of `key.endswith('_url')` (resources.py line 95)
for a dynamically typed key, with the same `__getattr__`/`__call__`
fallbacks as `key_split_name`; a resource returned by such a call is
truthy. -/
def key_ends_url (t : Transport) (fuel : Nat) (key : PyVal) (n : Nat) :
    Except Err Bool × Nat :=
  match fuel with
  | 0 => (Except.error Err.recursionError, n)
  | f + 1 =>
    match key with
    | pystr s => (Except.ok (strEndsWith s "_url"), n)
    | pyres nm u sch =>
      match resource_getattr t f (pyres nm u sch) "endswith" n with
      | (Except.error e, _, n1) => (Except.error e, n1)
      | (Except.ok w, _, n1) =>
        match w with
        | pyres a b c =>
          match fetch_resource t f (pyres a b c) "GET" (pydict []) [] [] n1 with
          | (Except.error e, n2) => (Except.error e, n2)
          | (Except.ok res2, n2) => (Except.ok (truthy res2), n2)
        | _ => (Except.error Err.typeError, n1)
    | _ => (Except.error Err.attributeError, n)
  termination_by structural fuel

/-- The entry loop of `Resource.parse_schema_dict` (resources.py lines
92-109) over the iteration keys of `d`: for each key compute
`name = key.split('_url')[0]`; a key ending in `'_url'` stores, under
`name`, an `Unloaded` resource built from a truthy value (`Resource(url=
data[key], name=humanize(name))`) or the raw falsy value; any other key
stores a `Loaded` resource for a dict value, the parsed list for a list
value, and the raw value otherwise.  Storing under a non-string derived
name cannot arise (every reachable derived name is a string or an earlier
exception occurred). -/
def parse_entries (t : Transport) (fuel : Nat) (d : PyVal) (ks : List PyVal)
    (acc : List (String × PyVal)) (n : Nat) : Except Err PyVal × Nat :=
  match fuel with
  | 0 => (Except.error Err.recursionError, n)
  | f + 1 =>
    match ks with
    | [] => (Except.ok (pydict acc), n)
    | key :: rest =>
      match key_split_name t f key n with
      | (Except.error e, n1) => (Except.error e, n1)
      | (Except.ok nameV, n1) =>
        match key_ends_url t f key n1 with
        | (Except.error e, n2) => (Except.error e, n2)
        | (Except.ok true, n2) =>
          match py_subscript t f d key n2 with
          | (Except.error e, n3) => (Except.error e, n3)
          | (Except.ok v, n3) =>
            if truthy v then
              match humanizePy nameV with
              | Except.error e => (Except.error e, n3)
              | Except.ok hname =>
                match resource_init t f (some v) none hname n3 with
                | (Except.error e, n4) => (Except.error e, n4)
                | (Except.ok child, n4) =>
                  match nameV with
                  | pystr ns => parse_entries t f d rest (dictSet acc ns child) n4
                  | _ => (Except.error Err.typeError, n4)
            else
              match nameV with
              | pystr ns => parse_entries t f d rest (dictSet acc ns v) n3
              | _ => (Except.error Err.typeError, n3)
        | (Except.ok false, n2) =>
          match py_subscript t f d key n2 with
          | (Except.error e, n3) => (Except.error e, n3)
          | (Except.ok v, n3) =>
            match v with
            | pydict kvs2 =>
              match humanizePy nameV with
              | Except.error e => (Except.error e, n3)
              | Except.ok hname =>
                match resource_init t f none (some (pydict kvs2)) hname n3 with
                | (Except.error e, n4) => (Except.error e, n4)
                | (Except.ok child, n4) =>
                  match nameV with
                  | pystr ns => parse_entries t f d rest (dictSet acc ns child) n4
                  | _ => (Except.error Err.typeError, n4)
            | pylist xs2 =>
              match nameV with
              | pystr ns =>
                match parse_schema_list t f xs2 (pystr ns) n3 with
                | (Except.error e, n4) => (Except.error e, n4)
                | (Except.ok lst, n4) => parse_entries t f d rest (dictSet acc ns lst) n4
              | _ => (Except.error Err.typeError, n3)
            | _ =>
              match nameV with
              | pystr ns => parse_entries t f d rest (dictSet acc ns v) n3
              | _ => (Except.error Err.typeError, n3)
  termination_by structural fuel

/-- Embeds `Resource.parse_schema_dict` (resources.py lines 91-109).  The
source iterates `for key in data` over whatever `data` dynamically is: the
keys of a dictionary, the elements of a list, the characters of a string;
iterating a resource goes through the `__getitem__` protocol, which on the
string-keyed dictionary schemas of this module raises `KeyError` at index
0, while a list or string schema yields its elements; other values are not
iterable. -/
def parse_schema_dict (t : Transport) (fuel : Nat) (data : PyVal) (n : Nat) :
    Except Err PyVal × Nat :=
  match fuel with
  | 0 => (Except.error Err.recursionError, n)
  | f + 1 =>
    match data with
    | pydict kvs => parse_entries t f (pydict kvs) (kvs.map (fun kv => pystr kv.1)) [] n
    | pylist xs => parse_entries t f (pylist xs) xs [] n
    | pystr s => parse_entries t f (pystr s) (s.data.map (fun c => pystr ⟨[c]⟩)) [] n
    | pyres nm u sch =>
      match ensure_schema_loaded t f (pyres nm u sch) n with
      | (Except.error e, n1) => (Except.error e, n1)
      | (Except.ok r1, n1) =>
        match r1 with
        | pyres _ _ (some (pydict _)) => (Except.error Err.keyError, n1)
        | pyres _ _ (some (pylist xs)) => parse_entries t f (pyres nm u sch) xs [] n1
        | pyres _ _ (some (pystr s)) =>
          parse_entries t f (pyres nm u sch) (s.data.map (fun c => pystr ⟨[c]⟩)) [] n1
        | _ => (Except.error Err.typeError, n1)
    | _ => (Except.error Err.typeError, n)
  termination_by structural fuel

/-- Embeds `Resource.parse_schema_list` (resources.py lines 112-119):
each element is wrapped in `Resource(session, schema=resource, name=name)`
where `name` is re-bound to `humanize(singularize(name))` on every
iteration (so the second element singularizes the already-humanized
name). -/
def parse_schema_list (t : Transport) (fuel : Nat) (xs : List PyVal)
    (name : PyVal) (n : Nat) : Except Err PyVal × Nat :=
  match fuel with
  | 0 => (Except.error Err.recursionError, n)
  | f + 1 => parse_list_go t f xs name [] n
  termination_by structural fuel

/-- Loop of `parse_schema_list`, carrying the re-bound name and the
accumulated resources. -/
def parse_list_go (t : Transport) (fuel : Nat) (xs : List PyVal) (name : PyVal)
    (acc : List PyVal) (n : Nat) : Except Err PyVal × Nat :=
  match fuel with
  | 0 => (Except.error Err.recursionError, n)
  | f + 1 =>
    match xs with
    | [] => (Except.ok (pylist acc), n)
    | x :: rest =>
      match singularizePy name with
      | Except.error e => (Except.error e, n)
      | Except.ok s1 =>
        match humanizePy s1 with
        | Except.error e => (Except.error e, n)
        | Except.ok nm2 =>
          match resource_init t f none (some x) nm2 n with
          | (Except.error e, n1) => (Except.error e, n1)
          | (Except.ok el, n1) => parse_list_go t f rest nm2 (acc ++ [el]) n1
  termination_by structural fuel

/-- Embeds `Resource.__init__` (resources.py lines 22-32).  `self.name` is
always assigned; `if url:` (truthiness) assigns `self.url = url` and
`self.schema = {}`; `if schema:` (truthiness — an empty payload assigns
neither attribute) then tests `'url' in schema`, copies `schema['url']`
into `self.url` on a hit, and assigns `self.schema =
self.parse_schema_dict(schema)` whatever `schema` dynamically is. -/
def resource_init (t : Transport) (fuel : Nat) (url : Option PyVal)
    (schemaArg : Option PyVal) (name : PyVal) (n : Nat) :
    Except Err PyVal × Nat :=
  match fuel with
  | 0 => (Except.error Err.recursionError, n)
  | f + 1 =>
    let u0 : Option PyVal :=
      match url with
      | some uv => if truthy uv then some uv else none
      | none => none
    let s0 : Option PyVal :=
      match url with
      | some uv => if truthy uv then some (pydict []) else none
      | none => none
    match schemaArg with
    | some sv =>
      if truthy sv then
        match py_contains t f "url" sv n with
        | (Except.error e, n1) => (Except.error e, n1)
        | (Except.ok true, n1) =>
          match py_subscript t f sv (pystr "url") n1 with
          | (Except.error e, n2) => (Except.error e, n2)
          | (Except.ok uv2, n2) =>
            match parse_schema_dict t f sv n2 with
            | (Except.error e, n3) => (Except.error e, n3)
            | (Except.ok parsed, n3) => (Except.ok (pyres name (some uv2) (some parsed)), n3)
        | (Except.ok false, n1) =>
          match parse_schema_dict t f sv n1 with
          | (Except.error e, n3) => (Except.error e, n3)
          | (Except.ok parsed, n3) => (Except.ok (pyres name u0 (some parsed)), n3)
      else (Except.ok (pyres name u0 s0), n)
    | none => (Except.ok (pyres name u0 s0), n)
  termination_by structural fuel

/-- Embeds `Resource.fetch_schema` (resources.py lines 75-88): send the
request through the session (one network call, counted), map the status
through `handle_status`, decode the body (`{}` for empty text, `ValueError`
for undecodable text), and dispatch on the decoded value's type — a dict is
parsed by `parse_schema_dict`, a list by `parse_schema_list` with
`self.name`, anything else raises the module's
`Exception("Unknown type of response from the API.")`. -/
def fetch_schema (t : Transport) (fuel : Nat) (r : PyVal) (req : HttpRequest)
    (n : Nat) : Except Err PyVal × Nat :=
  match fuel with
  | 0 => (Except.error Err.recursionError, n)
  | f + 1 =>
    match t n req with
    | Except.error e => (Except.error e, n + 1)
    | Except.ok resp =>
      match handle_status resp.status with
      | Except.error e => (Except.error e, n + 1)
      | Except.ok _ =>
        match resp.body with
        | Body.empty => parse_schema_dict t f (pydict []) (n + 1)
        | Body.malformed => (Except.error Err.malformedResponse, n + 1)
        | Body.json data =>
          match data with
          | pydict kvs => parse_schema_dict t f (pydict kvs) (n + 1)
          | pylist xs => parse_schema_list t f xs (nameOf r) (n + 1)
          | _ => (Except.error Err.unknownResponseType, n + 1)
  termination_by structural fuel

/-- Embeds `Resource.fetch_resource` (resources.py lines 182-192): read
`self.url` (through `__getattr__` when the attribute is absent), collect
the template variables, bind the single positional argument to the single
template variable when both counts are exactly one — any other combination
leaves the positional arguments silently unused — expand the template with
the keyword bindings, fetch the schema, and build the brand-new resource
`Resource(session, schema=schema, url=url, name=humanize(self.name))`
(whose constructor re-parses the already parsed schema). -/
def fetch_resource (t : Transport) (fuel : Nat) (r : PyVal) (method : String)
    (request_params : PyVal) (args : List PyVal)
    (kwargs : List (String × PyVal)) (n : Nat) : Except Err PyVal × Nat :=
  match fuel with
  | 0 => (Except.error Err.recursionError, n)
  | f + 1 =>
    match getattr_url t f r n with
    | (Except.error e, n1) => (Except.error e, n1)
    | (Except.ok uv, n1) =>
      match uv with
      | pystr u =>
        let vars := uritemplate_variables u
        let kwargs2 :=
          if args.length = 1 ∧ vars.length = 1
          then dictSet kwargs (vars.headD "") (args.headD pynone)
          else kwargs
        let url2 := uritemplate_expand u kwargs2
        match fetch_schema t f r ⟨method, url2, request_params⟩ n1 with
        | (Except.error e, n2) => (Except.error e, n2)
        | (Except.ok schemaV, n2) =>
          match humanizePy (nameOf r) with
          | Except.error e => (Except.error e, n2)
          | Except.ok nm2 => resource_init t f (some (pystr url2)) (some schemaV) nm2 n2
      | _ => (Except.error Err.typeError, n1)

  termination_by structural fuel
end

/-- Embeds `Resource.head` (resources.py lines 126-127). -/
def resource_head (t : Transport) (fuel : Nat) (r : PyVal) (request_params : PyVal)
    (args : List PyVal) (kwargs : List (String × PyVal)) (n : Nat) :
    Except Err PyVal × Nat :=
  fetch_resource t fuel r "HEAD" request_params args kwargs n

/-- Embeds `Resource.get` (resources.py lines 134-135). -/
def resource_get (t : Transport) (fuel : Nat) (r : PyVal) (request_params : PyVal)
    (args : List PyVal) (kwargs : List (String × PyVal)) (n : Nat) :
    Except Err PyVal × Nat :=
  fetch_resource t fuel r "GET" request_params args kwargs n

/-- Embeds `Resource.post` (resources.py lines 142-143).  The source
defines `post(request_params={}, *args, **kwargs)` WITHOUT the `self`
parameter: invoking it as a bound method binds the receiver to
`request_params`, and evaluating the body's `self.fetch_resource` raises
`NameError` (`self` is an unbound name) before any request is constructed
or sent.  Every invocation therefore fails immediately with `NameError`,
performs no network call, and mutates nothing. -/
def resource_post (_t : Transport) (_fuel : Nat) (_r : PyVal)
    (_request_params : PyVal) (_args : List PyVal)
    (_kwargs : List (String × PyVal)) (n : Nat) : Except Err PyVal × Nat :=
  (Except.error Err.nameError, n)

/-- Embeds `Resource.put` (resources.py lines 150-151). -/
def resource_put (t : Transport) (fuel : Nat) (r : PyVal) (request_params : PyVal)
    (args : List PyVal) (kwargs : List (String × PyVal)) (n : Nat) :
    Except Err PyVal × Nat :=
  fetch_resource t fuel r "PUT" request_params args kwargs n

/-- Embeds `Resource.patch` (resources.py lines 158-159). -/
def resource_patch (t : Transport) (fuel : Nat) (r : PyVal) (request_params : PyVal)
    (args : List PyVal) (kwargs : List (String × PyVal)) (n : Nat) :
    Except Err PyVal × Nat :=
  fetch_resource t fuel r "PATCH" request_params args kwargs n

/-- Embeds `Resource.delete` (resources.py lines 166-167). -/
def resource_delete (t : Transport) (fuel : Nat) (r : PyVal) (request_params : PyVal)
    (args : List PyVal) (kwargs : List (String × PyVal)) (n : Nat) :
    Except Err PyVal × Nat :=
  fetch_resource t fuel r "DELETE" request_params args kwargs n

/-- Embeds `Resource.options` (resources.py lines 174-175). -/
def resource_options (t : Transport) (fuel : Nat) (r : PyVal) (request_params : PyVal)
    (args : List PyVal) (kwargs : List (String × PyVal)) (n : Nat) :
    Except Err PyVal × Nat :=
  fetch_resource t fuel r "OPTIONS" request_params args kwargs n

/-- Embeds `Resource.keys` (resources.py lines 63-65): ensure the schema is
loaded and return `self.schema.keys()`.  A list schema has no `keys`
attribute (`AttributeError`).  The triple is (outcome, receiver after the
call, call counter), as for `resource_getattr`. -/
def resource_keys (t : Transport) (fuel : Nat) (r : PyVal) (n : Nat) :
    Except Err (List String) × PyVal × Nat :=
  match ensure_schema_loaded t fuel r n with
  | (Except.error e, n1) => (Except.error e, r, n1)
  | (Except.ok r1, n1) =>
    match r1 with
    | pyres _ _ (some (pydict kvs)) => (Except.ok (kvs.map Prod.fst), r1, n1)
    | _ => (Except.error Err.attributeError, r1, n1)

/-- The request a parameterless verb call on a node with URL template `u`
sends: the expansion of `u` with no bindings and the default empty request
parameters. -/
def reqOf (u : String) : HttpRequest := ⟨"GET", uritemplate_expand u [], pydict []⟩

/-- Stub transport that answers every request with 200 and an empty body. -/
def tEmpty : Transport := fun _ _ => Except.ok ⟨200, Body.empty⟩

/-- Stub transport that fails every request; parse-only executions never
reach it. -/
def tNone : Transport := fun _ _ => Except.error Err.transportFailure

/-- Stub transport that answers every request with 200 and the body
`[{"id": 1}]` (a top-level JSON array). -/
def tList : Transport := fun _ _ => Except.ok ⟨200, Body.json (pylist [pydict [("id", pyint 1)]])⟩

/-- Stub transport for the positional-binding scenarios: it answers with a
flat object exactly at the URL the silent no-op produces and at the URL the
automatic binding produces, and fails every other request — so a successful
call proves which URL was requested. -/
def tBind : Transport := fun _ req =>
  if req.url = "https://x/repos//" ∨ req.url = "https://x/u/a"
  then Except.ok ⟨200, Body.json (pydict [("id", pyint 1)])⟩
  else Except.error Err.transportFailure

/-- An `Unloaded` root node: URL assigned, schema the empty dictionary. -/
def rClient : PyVal := pyres (pystr "Client") (some (pystr "https://api.x/")) (some (pydict []))

/-- An `Unloaded` node whose URL names a collection. -/
def rItems : PyVal := pyres (pystr "items") (some (pystr "https://x/items")) (some (pydict []))

/-- An `Unloaded` node whose URL template declares two variables. -/
def rRepos : PyVal :=
  pyres (pystr "repos") (some (pystr "https://x/repos/{owner}/{repo}")) (some (pydict []))

/-- An `Unloaded` node whose URL template declares exactly one variable. -/
def rUser : PyVal := pyres (pystr "user") (some (pystr "https://x/u/{user}")) (some (pydict []))

/-- Scalar JSON values: neither containers nor resources. -/
def isScalar : PyVal → Bool
  | pynone => true
  | pybool _ => true
  | pyint _ => true
  | pystr _ => true
  | _ => false

/-- Stub transport that answers every request with status 500 and an empty
body. -/
def t500 : Transport := fun _ _ => Except.ok ⟨500, Body.empty⟩

/-- A resource whose `schema` attribute was never assigned can never load:
`ensure_schema_loaded` re-enters itself through `__getattr__('schema')` and
exhausts every recursion depth. -/
lemma ensure_schema_loaded_no_attr (t : Transport) (nm : PyVal) (u : Option PyVal) :
    ∀ fuel n, ensure_schema_loaded t fuel (pyres nm u none) n =
      (Except.error Err.recursionError, n) := by
  intro fuel
  induction fuel with
  | zero => intro n; rfl
  | succ f ih => intro n; simpa [ensure_schema_loaded] using ih n

/-- C1: the claim that once a node's schema has been loaded no subsequent
accessor performs another network fetch fails on the code.  For an
`Unloaded` node whose URL answers 200 with an empty body, the first
`keys()` performs one network call and loads the (empty) schema, and the
second `keys()` on that same, now loaded, node performs a second call —
`ensure_schema_loaded` tests Python truthiness of the schema attribute, and
the empty loaded schema is falsy, so the node never counts as loaded. -/
theorem C1_empty_schema_refetches :
    resource_keys tEmpty 32 rClient 0 = (Except.ok [], rClient, 1) ∧
    resource_keys tEmpty 32 rClient 1 = (Except.ok [], rClient, 2) := ⟨rfl, rfl⟩

/-- C2: the claim that a positional argument with a non-singleton template
variable set fails fast with `AmbiguousBinding` fails on the code: on a
template declaring two variables the single positional argument is silently
dropped and a request is sent to the template expanded with no bindings
(the transport only answers `https://x/repos//`, so the successful result
proves that URL was requested); the second conjunct shows the automatic
binding with exactly one declared variable (the transport only answers
`https://x/u/a`). -/
theorem C2_positional_arg_silently_ignored :
    resource_get tBind 32 rRepos (pydict []) [pystr "a"] [] 0 =
      (Except.ok (pyres (pystr "Repos") (some (pystr "https://x/repos//"))
        (some (pydict [("id", pyint 1)]))), 1) ∧
    resource_get tBind 32 rUser (pydict []) [pystr "a"] [] 0 =
      (Except.ok (pyres (pystr "User") (some (pystr "https://x/u/a"))
        (some (pydict [("id", pyint 1)]))), 1) := ⟨rfl, rfl⟩

/-- C3 counterexample: for the key `a_url_b_url` (which ends in the link
suffix) with a non-empty value, the parsed schema stores the child under
`a` — the portion before the FIRST `_url` occurrence — so lookup of the
suffix-stripped key `a_url_b` finds nothing; and for `next_url` the child
node's label is the humanized `Next`, not the suffix-stripped key `next`. -/
theorem C3_link_key_counterexample :
    parse_schema_dict tNone 32 (pydict [("a_url_b_url", pystr "http://z")]) 0 =
      (Except.ok (pydict [("a",
        pyres (pystr "A") (some (pystr "http://z")) (some (pydict [])))]), 0) ∧
    dictGet [("a", pyres (pystr "A") (some (pystr "http://z")) (some (pydict [])))]
      "a_url_b" = none ∧
    parse_schema_dict tNone 32 (pydict [("next_url", pystr "http://z")]) 0 =
      (Except.ok (pydict [("next",
        pyres (pystr "Next") (some (pystr "http://z")) (some (pydict [])))]), 0) ∧
    ("Next" : String) ≠ "next" :=
  ⟨rfl, rfl, rfl, by decide⟩

/-- C3 (amended): for every response-object key ending in `_url`, a truthy
value is stored under the portion of the key before its first `_url`
occurrence as an `Unloaded` child resource whose url is that value and
whose label is the humanized form of that portion; a falsy value is stored
under that same portion as the plain scalar. -/
theorem C3_link_classification (t : Transport) (f n : Nat) (k : String) (v : PyVal)
    (hk : strEndsWith k "_url" = true) :
    (truthy v = true →
      parse_schema_dict t (f + 4) (pydict [(k, v)]) n =
        (Except.ok (pydict [(strBefore k "_url",
          pyres (pystr (humanizeStr (strBefore k "_url"))) (some v) (some (pydict [])))]), n)) ∧
    (truthy v = false →
      parse_schema_dict t (f + 4) (pydict [(k, v)]) n =
        (Except.ok (pydict [(strBefore k "_url", v)]), n)) := by
  constructor <;> intro hv <;>
    simp [parse_schema_dict, parse_entries, key_split_name, key_ends_url, py_subscript,
      dictGet, resource_init, humanizePy, hk, hv, dictSet]

/-- C3 witness: the link classification applied to `next_url` with value
`http://z` — the child is stored under `next`, `Unloaded`, with that url
and label `Next`. -/
theorem C3_link_classification_witness :
    parse_schema_dict tNone 36 (pydict [("next_url", pystr "http://z")]) 0 =
      (Except.ok (pydict [("next",
        pyres (pystr "Next") (some (pystr "http://z")) (some (pydict [])))]), 0) :=
  (C3_link_classification tNone 32 0 "next_url" (pystr "http://z") rfl).1 rfl

/-- C4: the claim that POST is a working verb-dispatch operation fails on
the code: `post` is defined without the `self` parameter, so every
invocation raises `NameError` when the body's unresolvable `self` is
evaluated — with any transport, fuel, receiver and arguments the call
errors and the network call counter is unchanged (no request is sent). -/
theorem C4_post_raises_name_error (t : Transport) (fuel : Nat) (r : PyVal)
    (request_params : PyVal) (args : List PyVal)
    (kwargs : List (String × PyVal)) (n : Nat) :
    resource_post t fuel r request_params args kwargs n =
      (Except.error Err.nameError, n) := rfl

/-- C5: a 200 response with an empty body does yield a node whose `keys()`
is empty, but obtaining `keys()` from that node performs a further network
call, contradicting the claim: the verb call (one network call) returns the
node with the empty dictionary schema, and `keys()` on it drives the
counter from 1 to 2 because the falsy empty schema makes
`ensure_schema_loaded` fetch again. -/
theorem C5_empty_body_keys_refetch :
    resource_get tEmpty 32 rClient (pydict []) [] [] 0 = (Except.ok rClient, 1) ∧
    resource_keys tEmpty 32 rClient 1 = (Except.ok [], rClient, 2) := ⟨rfl, rfl⟩

/-- C6: the claim that every nested-object field (including the empty
object) becomes a child that starts `Loaded` and answers accessors without
fetching fails on the code for the empty object: `Resource.__init__` runs
`if schema:` on the falsy empty dict and assigns neither `url` nor
`schema`, so the parsed child carries no attributes, and every accessor
(`keys`, attribute access) recurses through
`ensure_schema_loaded`/`__getattr__('schema')` until the recursion limit,
at every fuel and without any network call. -/
theorem C6_empty_nested_object_diverges :
    parse_schema_dict tNone 32 (pydict [("child", pydict [])]) 0 =
      (Except.ok (pydict [("child", pyres (pystr "Child") none none)]), 0) ∧
    ∀ fuel n, resource_keys tNone fuel (pyres (pystr "Child") none none) n =
        (Except.error Err.recursionError, pyres (pystr "Child") none none, n) ∧
      resource_getattr tNone fuel (pyres (pystr "Child") none none) "x" n =
        (Except.error Err.recursionError, pyres (pystr "Child") none none, n) := by
  refine ⟨rfl, fun fuel n => ⟨?_, ?_⟩⟩
  · simp [resource_keys, ensure_schema_loaded_no_attr]
  · cases fuel with
    | zero => rfl
    | succ f => simp [resource_getattr, ensure_schema_loaded_no_attr]

/-- C7: the claim that a verb call whose body is a top-level JSON array
returns a node whose schema is the ordered sequence of `Loaded` children
fails on the code: `fetch_schema` does build that sequence (second
conjunct), but `fetch_resource` then re-parses the already-parsed sequence
through `Resource.__init__`/`parse_schema_dict`, which treats each child
resource as a dictionary key, looks up its `split` attribute through
`__getattr__` and raises the 404 `NotFound` — the verb call fails instead
of returning a node. -/
theorem C7_list_body_verb_call_fails :
    resource_get tList 32 rItems (pydict []) [] [] 0 =
      (Except.error (Err.clientError 404), 1) ∧
    fetch_schema tList 32 rItems (reqOf "https://x/items") 0 =
      (Except.ok (pylist [pyres (pystr "Item") none
        (some (pydict [("id", pyint 1)]))]), 1) := ⟨rfl, rfl⟩

/-- C8: when the lazy-load fetch of an `Unloaded` node fails (failing
status, malformed body, scalar body or transport error all make
`fetch_schema` return an error), the error propagates unchanged to the
caller of `ensure_schema_loaded` and of attribute access, and the receiver
returned with attribute access is the untouched `Unloaded` node — the
schema assignment is the last step of the load, so the caller may retry the
same operation later. -/
theorem C8_failed_fetch_propagates (t : Transport) (f : Nat) (nm : PyVal)
    (u : String) (s : PyVal) (key : String) (n nend : Nat) (e : Err)
    (hfalsy : truthy s = false)
    (hfail : fetch_schema t (f + 1) (pyres nm (some (pystr u)) (some s)) (reqOf u) n =
      (Except.error e, nend)) :
    ensure_schema_loaded t (f + 3) (pyres nm (some (pystr u)) (some s)) n =
      (Except.error e, nend) ∧
    resource_getattr t (f + 4) (pyres nm (some (pystr u)) (some s)) key n =
      (Except.error e, pyres nm (some (pystr u)) (some s), nend) := by
  simp [reqOf] at hfail
  have h1 : ensure_schema_loaded t (f + 3) (pyres nm (some (pystr u)) (some s)) n =
      (Except.error e, nend) := by
    simp [ensure_schema_loaded, fetch_resource, getattr_url, hfalsy, hfail]
  exact ⟨h1, by simp [resource_getattr, h1]⟩

/-- C8 witness: a 500 response makes the first access to the `Unloaded`
root fail with `ServerError 500` after exactly one network call, and the
node handed back is the untouched `Unloaded` node. -/
theorem C8_failed_fetch_propagates_witness :
    ensure_schema_loaded t500 4 rClient 0 = (Except.error (Err.serverError 500), 1) ∧
    resource_getattr t500 5 rClient "x" 0 =
      (Except.error (Err.serverError 500), rClient, 1) :=
  C8_failed_fetch_propagates t500 1 (pystr "Client") "https://api.x/"
    (pydict []) "x" 0 1 (Err.serverError 500) rfl rfl

/-- C9: attribute access on a `Loaded` node (truthy dictionary schema, or
truthy list schema) for a key the schema does not contain fails with the
error raised as `handle_status(404)` — the `NotFound` carrying code 404 —
returning the receiver unchanged and performing no network call. -/
theorem C9_missing_key_not_found (t : Transport) (f : Nat) (nm : PyVal)
    (u : Option PyVal) (p : String × PyVal) (ps : List (String × PyVal))
    (y : PyVal) (ys : List PyVal) (key : String) (n : Nat)
    (hdict : dictGet (p :: ps) key = none)
    (hlist : (y :: ys).any (strEq · key) = false) :
    resource_getattr t (f + 2) (pyres nm u (some (pydict (p :: ps)))) key n =
      (Except.error (Err.clientError 404), pyres nm u (some (pydict (p :: ps))), n) ∧
    resource_getattr t (f + 2) (pyres nm u (some (pylist (y :: ys)))) key n =
      (Except.error (Err.clientError 404), pyres nm u (some (pylist (y :: ys))), n) := by
  constructor <;> simp [resource_getattr, ensure_schema_loaded, truthy, hdict, hlist]

/-- C9 witness: looking up `missing` on a node loaded with the schema
`{"id": 1}` raises the 404 `NotFound` without touching the network. -/
theorem C9_missing_key_not_found_witness :
    resource_getattr tNone 2 (pyres (pystr "n") none
      (some (pydict [("id", pyint 1)]))) "missing" 0 =
      (Except.error (Err.clientError 404),
        pyres (pystr "n") none (some (pydict [("id", pyint 1)])), 0) :=
  (C9_missing_key_not_found tNone 0 (pystr "n") none ("id", pyint 1) []
    (pyint 7) [] "missing" 0 rfl rfl).1

/-- C10 counterexample: a key that merely contains `_url` in its interior
is NOT stored under the original key — `{"a_url_b": 5}` parses to a schema
whose only key is `a`, and lookup of `a_url_b` finds nothing. -/
theorem C10_interior_url_counterexample :
    parse_schema_dict tNone 32 (pydict [("a_url_b", pyint 5)]) 0 =
      (Except.ok (pydict [("a", pyint 5)]), 0) ∧
    dictGet [("a", pyint 5)] "a_url_b" = none := ⟨rfl, rfl⟩

/-- C10 (amended): for every object field whose key does not end in
`_url`, the parsed value is stored under, and retrievable by, the portion
of the key before its first `_url` occurrence — which is the original
unmodified key exactly when the key nowhere contains `_url`.  All three
JSON value shapes are covered: a scalar is stored unchanged, an object is
stored as the child resource `Resource.__init__` builds from it (with the
humanized label), a list is stored as the sequence `parse_schema_list`
builds from it — in every branch name humanization touches only the stored
child's label, never the lookup key. -/
theorem C10_data_key_storage (t : Transport) (f n : Nat) (k : String) (v : PyVal)
    (hk : strEndsWith k "_url" = false) :
    (isScalar v = true →
      parse_schema_dict t (f + 4) (pydict [(k, v)]) n =
        (Except.ok (pydict [(strBefore k "_url", v)]), n)) ∧
    (∀ kvs2 child n4, v = pydict kvs2 →
      resource_init t (f + 2) none (some (pydict kvs2))
          (pystr (humanizeStr (strBefore k "_url"))) n = (Except.ok child, n4) →
      parse_schema_dict t (f + 4) (pydict [(k, v)]) n =
        (Except.ok (pydict [(strBefore k "_url", child)]), n4)) ∧
    (∀ xs2 lst n4, v = pylist xs2 →
      parse_schema_list t (f + 2) xs2 (pystr (strBefore k "_url")) n =
        (Except.ok lst, n4) →
      parse_schema_dict t (f + 4) (pydict [(k, v)]) n =
        (Except.ok (pydict [(strBefore k "_url", lst)]), n4)) := by
  refine ⟨?_, ?_, ?_⟩
  · intro hv
    cases v <;> simp_all [parse_schema_dict, parse_entries, key_split_name, key_ends_url,
      py_subscript, dictGet, isScalar, dictSet]
  · rintro kvs2 child n4 rfl hinit
    simp [parse_schema_dict, parse_entries, key_split_name, key_ends_url,
      py_subscript, dictGet, humanizePy, hk, hinit, dictSet]
  · rintro xs2 lst n4 rfl hlist
    simp [parse_schema_dict, parse_entries, key_split_name, key_ends_url,
      py_subscript, dictGet, hk, hlist, dictSet]

/-- C10 witness: the theorem applied to one field of each JSON value
shape.  The scalar under `name` stays under `name`; the object under
`owner` becomes the `Loaded` child labeled `Owner` but is stored under the
unmodified key `owner`; the list under `items` becomes the sequence of
`Loaded` children labeled `Item` but is stored under the unmodified key
`items`. -/
theorem C10_data_key_storage_witness :
    parse_schema_dict tNone 36 (pydict [("name", pystr "a")]) 0 =
      (Except.ok (pydict [("name", pystr "a")]), 0) ∧
    parse_schema_dict tNone 36 (pydict [("owner", pydict [("id", pyint 1)])]) 0 =
      (Except.ok (pydict [("owner",
        pyres (pystr "Owner") none (some (pydict [("id", pyint 1)])))]), 0) ∧
    parse_schema_dict tNone 36 (pydict [("items", pylist [pydict [("id", pyint 1)]])]) 0 =
      (Except.ok (pydict [("items",
        pylist [pyres (pystr "Item") none (some (pydict [("id", pyint 1)]))])]), 0) :=
  ⟨(C10_data_key_storage tNone 32 0 "name" (pystr "a") rfl).1 rfl,
   (C10_data_key_storage tNone 32 0 "owner" (pydict [("id", pyint 1)]) rfl).2.1
     [("id", pyint 1)]
     (pyres (pystr "Owner") none (some (pydict [("id", pyint 1)]))) 0 rfl rfl,
   (C10_data_key_storage tNone 32 0 "items" (pylist [pydict [("id", pyint 1)]]) rfl).2.2
     [pydict [("id", pyint 1)]]
     (pylist [pyres (pystr "Item") none (some (pydict [("id", pyint 1)]))]) 0 rfl rfl⟩

end Octokit
